import Mathlib

/-!
Verification development for the Project Atom gesture-control pipeline
(src/tracking/gestures.py, src/camera/capture.py, src/main_3d.py).

The Python code is shallowly embedded: floats that only ever carry the
literal confidence constants are modelled as rationals, gesture and pose
names are the Python strings, MediaPipe landmark lists are Lean lists,
the two `queue.Queue` channels are lists (front = oldest), and the
background worker loop is a step function driven by an explicit list of
per-iteration environment inputs (observed `running` flag and camera
read outcome).
-/

namespace ProjectAtom

/-- A MediaPipe landmark `(x, y, z)` tuple (gestures.py docstrings:
"List of 21 (x, y, z) tuples from MediaPipe"). -/
structure Landmark where
  x : ℚ
  y : ℚ
  z : ℚ
deriving DecidableEq, Repr

/-- MediaPipe hand landmark indices, from the class constants of
`GestureDetector` in src/tracking/gestures.py. -/
def WRIST : Nat := 0

def THUMB_TIP : Nat := 4

def INDEX_TIP : Nat := 8

def MIDDLE_TIP : Nat := 12

def RING_TIP : Nat := 16

def PINKY_TIP : Nat := 20

def INDEX_PIP : Nat := 6

def MIDDLE_PIP : Nat := 10

def RING_PIP : Nat := 14

def PINKY_PIP : Nat := 18

/-- `landmarks[i][1]`: the y (vertical) coordinate of landmark `i`.
Every use in the source is guarded by `len(landmarks) >= 21`, so the
default value is never reached at the guarded call sites. -/
def lmY (landmarks : List Landmark) (i : Nat) : ℚ :=
  (landmarks.getD i ⟨0, 0, 0⟩).y

/-- `GestureDetector.is_fist` (src/tracking/gestures.py:33-65): all four
non-thumb fingertips strictly below (numerically greater y than) their
PIP joints. -/
def is_fist (landmarks : List Landmark) : Bool :=
  if landmarks.isEmpty || landmarks.length < 21 then
    false
  else
    decide (lmY landmarks INDEX_TIP > lmY landmarks INDEX_PIP) &&
    decide (lmY landmarks MIDDLE_TIP > lmY landmarks MIDDLE_PIP) &&
    decide (lmY landmarks RING_TIP > lmY landmarks RING_PIP) &&
    decide (lmY landmarks PINKY_TIP > lmY landmarks PINKY_PIP)

/-- `GestureDetector.is_open_palm` (src/tracking/gestures.py:67-90): all
four non-thumb fingertips strictly above (numerically smaller y than)
their PIP joints. -/
def is_open_palm (landmarks : List Landmark) : Bool :=
  if landmarks.isEmpty || landmarks.length < 21 then
    false
  else
    decide (lmY landmarks INDEX_TIP < lmY landmarks INDEX_PIP) &&
    decide (lmY landmarks MIDDLE_TIP < lmY landmarks MIDDLE_PIP) &&
    decide (lmY landmarks RING_TIP < lmY landmarks RING_PIP) &&
    decide (lmY landmarks PINKY_TIP < lmY landmarks PINKY_PIP)

/-- `GestureDetector.detect_gesture` (src/tracking/gestures.py:92-110). -/
def detect_gesture (landmarks : List Landmark) : String :=
  if landmarks.isEmpty then "none"
  else if is_fist landmarks then "fist"
  else if is_open_palm landmarks then "open"
  else "none"

/-- Spec-side predicate (§4.1 Fist rule): each of the four non-thumb
fingertips (indices 8, 12, 16, 20) has vertical coordinate strictly
greater than its corresponding PIP joint (indices 6, 10, 14, 18). -/
def allCurled (landmarks : List Landmark) : Prop :=
  lmY landmarks 8 > lmY landmarks 6 ∧
  lmY landmarks 12 > lmY landmarks 10 ∧
  lmY landmarks 16 > lmY landmarks 14 ∧
  lmY landmarks 20 > lmY landmarks 18

/-- Spec-side predicate (§4.1 Open rule): each of the four non-thumb
fingertips has vertical coordinate strictly less than its PIP joint. -/
def allExtended (landmarks : List Landmark) : Prop :=
  lmY landmarks 8 < lmY landmarks 6 ∧
  lmY landmarks 12 < lmY landmarks 10 ∧
  lmY landmarks 16 < lmY landmarks 14 ∧
  lmY landmarks 20 < lmY landmarks 18

instance (l : List Landmark) : Decidable (allCurled l) := by
  unfold allCurled; infer_instance

instance (l : List Landmark) : Decidable (allExtended l) := by
  unfold allExtended; infer_instance

/-! ### Per-frame gesture processing (GestureController._process_loop, src/main_3d.py:389-473) -/

/-- The mutable loop variables of the per-hand loop in
`GestureController._process_loop` (src/main_3d.py:399-415):
`left_gesture`, `right_gesture`, the accumulated `confidence` and
`gesture_count`. -/
structure GestureAcc where
  left_gesture : String
  right_gesture : String
  confidence : ℚ
  gesture_count : Nat
deriving DecidableEq, Repr

/-- `handedness[i] if i < len(handedness) else "Unknown"`
(src/main_3d.py:404). -/
def handLabel (handedness : List String) (i : Nat) : String :=
  handedness.getD i "Unknown"

/-- One iteration of the per-hand loop body (src/main_3d.py:403-415):
classify the hand, then record its gesture under its side label; hands
labelled neither "Left" nor "Right" change none of the loop variables. -/
def processHand (acc : GestureAcc) (label : String) (landmarks : List Landmark) :
    GestureAcc :=
  let gesture := detect_gesture landmarks
  if label = "Left" then
    if gesture ≠ "none" then
      { acc with left_gesture := gesture, confidence := acc.confidence + 1,
                 gesture_count := acc.gesture_count + 1 }
    else
      { acc with left_gesture := gesture }
  else if label = "Right" then
    if gesture ≠ "none" then
      { acc with right_gesture := gesture, confidence := acc.confidence + 1,
                 gesture_count := acc.gesture_count + 1 }
    else
      { acc with right_gesture := gesture }
  else
    acc

/-- The `for i, landmarks in enumerate(all_landmarks)` loop
(src/main_3d.py:403-415), with the running index made explicit. -/
def accumFrom (handedness : List String) :
    Nat → GestureAcc → List (List Landmark) → GestureAcc
  | _, acc, [] => acc
  | i, acc, lms :: rest =>
      accumFrom handedness (i + 1) (processHand acc (handLabel handedness i) lms) rest

/-- The loop of src/main_3d.py:403-415 started from the initial values
`left_gesture = right_gesture = "none"`, `confidence = 0.0`,
`gesture_count = 0` (src/main_3d.py:399-401). -/
def accumGestures (all_landmarks : List (List Landmark)) (handedness : List String) :
    GestureAcc :=
  accumFrom handedness 0 ⟨"none", "none", 0, 0⟩ all_landmarks

/-- The enriched confidence computation of src/main_3d.py:417-424:
average per-hand agreement, 0.5 when hands are present but no hand
produced a clear gesture, 0.0 when no hands are present. -/
def computeConfidence (acc : GestureAcc) (numHands : Nat) : ℚ :=
  if acc.gesture_count > 0 then
    acc.confidence / acc.gesture_count
  else if numHands > 0 then
    0.5
  else
    0.0

/-- The gesture-to-animation decision chain of src/main_3d.py:427-449.
Every branch assigns `confidence`, so the value computed by
`computeConfidence` never reaches the published decision. -/
def resolve (left_gesture right_gesture : String) (hands_present : Nat) :
    String × ℚ :=
  if left_gesture = "fist" ∧ right_gesture = "fist" then
    ("boxing", 1.0)
  else if left_gesture = "open" ∧ right_gesture = "open" then
    ("dance", 1.0)
  else if left_gesture = "fist" then
    ("punch_left", 0.85)
  else if right_gesture = "fist" then
    ("punch_right", 0.85)
  else if left_gesture = "open" then
    ("kick_left", 0.85)
  else if right_gesture = "open" then
    ("kick_right", 0.85)
  else
    ("idle", if hands_present = 0 then 0.0 else 0.3)

/-- The `gesture_data` dict published once per processed frame
(src/main_3d.py:452-457). -/
structure Decision where
  pose : String
  left_gesture : String
  right_gesture : String
  confidence : ℚ
deriving DecidableEq, Repr

/-- The per-frame decision computation of `_process_loop`
(src/main_3d.py:399-457): run the per-hand loop, compute the enriched
confidence (whose value every branch of the decision chain then
overwrites), and build the published `gesture_data`. -/
def processFrame (all_landmarks : List (List Landmark)) (handedness : List String) :
    Decision :=
  let acc := accumGestures all_landmarks handedness
  let _enriched := computeConfidence acc all_landmarks.length
  let pc := resolve acc.left_gesture acc.right_gesture all_landmarks.length
  { pose := pc.1
    left_gesture := acc.left_gesture
    right_gesture := acc.right_gesture
    confidence := pc.2 }

/-! ### Spec-side decision table (§4.2, §9 of the specification) -/

/-- Spec-side rendering of the §4.2 decision table as an explicit
ordered list of (guard, action, confidence) rules, evaluated
top-to-bottom with first match winning, as §9 prescribes. The final
"otherwise" row is the default of `firstMatch`. -/
def decisionRules : List ((String → String → Bool) × String × ℚ) :=
  [ (fun l r => decide (l = "fist" ∧ r = "fist"), "boxing", 1.0),
    (fun l r => decide (l = "open" ∧ r = "open"), "dance", 1.0),
    (fun l _ => decide (l = "fist"), "punch_left", 0.85),
    (fun _ r => decide (r = "fist"), "punch_right", 0.85),
    (fun l _ => decide (l = "open"), "kick_left", 0.85),
    (fun _ r => decide (r = "open"), "kick_right", 0.85) ]

/-- First-match evaluation of the spec's decision table; the
"otherwise" row yields Idle with confidence 0.0 when no hands are
present and 0.3 otherwise. -/
def firstMatch (l r : String) (hands_present : Nat) : String × ℚ :=
  match decisionRules.find? (fun rule => rule.1 l r) with
  | some rule => rule.2
  | none => ("idle", if hands_present = 0 then 0.0 else 0.3)

/-! ### Camera (src/camera/capture.py) -/

/-- The camera's `cv2.VideoCapture` handle: `some opened` models a
capture object whose `isOpened()` is `opened`; `none` models
`self.cap = None`. -/
structure Camera where
  cap : Option Bool
deriving DecidableEq, Repr

/-- `Camera.__init__` (capture.py:11-19): `self.cap = None`. -/
def Camera.init : Camera := { cap := none }

/-- `Camera.start` (capture.py:21-29). Whether the device opens is the
environment input `opens`; the method stores the new capture object and
returns its `isOpened()`. -/
def Camera.start (_c : Camera) (opens : Bool) : Camera × Bool :=
  ({ cap := some opens }, opens)

/-- `Camera.stop` (capture.py:51-55): release the capture object when
one exists, otherwise do nothing. -/
def Camera.stop (c : Camera) : Camera :=
  match c.cap with
  | some _ => { cap := none }
  | none => c

/-- `Camera.read_frame` (capture.py:31-49): with `self.cap = None` the
method returns `(False, None)` without touching any device; otherwise
the device read outcome `dev` decides the result (`dev = none` models a
failed `self.cap.read()`; the mirror flip does not change success or
identity of the frame as modelled). -/
def Camera.read_frame {α : Type} (c : Camera) (dev : Option α) : Bool × Option α :=
  match c.cap with
  | none => (false, none)
  | some _ =>
    match dev with
    | none => (false, none)
    | some frame => (true, some frame)

/-! ### Publication channels (src/main_3d.py:366-372, 459-489) -/

/-- `self.gesture_queue.put_nowait(...)` with `queue.Full` swallowed
(src/main_3d.py:459-462). The queue was created unbounded
(`queue.Queue()`, src/main_3d.py:370), so the put always succeeds and
appends; the producer never blocks. -/
def decisionPublish (ch : List Decision) (d : Decision) : List Decision :=
  ch ++ [d]

/-- `GestureController.get_latest_gesture_data` (src/main_3d.py:475-483):
drain the queue with `get_nowait`, keeping only the last value read;
returns that value (or `none` when the queue was empty) and the queue
state afterwards. -/
def decisionPoll (ch : List Decision) : Option Decision × List Decision :=
  (ch.getLast?, [])

/-- The frame queue's capacity (`queue.Queue(maxsize=2)`,
src/main_3d.py:371). -/
def frameCapacity : Nat := 2

/-- `put_nowait` on the bounded frame queue: appends when below
capacity; the `queue.Full` exception is caught and the frame dropped
(src/main_3d.py:471-473). -/
def framePut {α : Type} (ch : List α) (f : α) : List α :=
  if ch.length < frameCapacity then ch ++ [f] else ch

/-- The eviction loop `while not self.frame_queue.empty():
get_nowait()` (src/main_3d.py:466-470): leaves the queue empty. -/
def frameDrain {α : Type} (_ch : List α) : List α := []

/-- The producer's frame publish (src/main_3d.py:464-473): evict
everything queued, then insert the new annotated frame. -/
def framePublish {α : Type} (ch : List α) (f : α) : List α :=
  framePut (frameDrain ch) f

/-- `GestureController.get_latest_frame` (src/main_3d.py:485-489): one
non-blocking `get_nowait`; `queue.Empty` yields `None`. -/
def getLatestFrame {α : Type} (ch : List α) : Option α × List α :=
  match ch with
  | [] => (none, [])
  | f :: rest => (some f, rest)

/-- A producer publish or a single consumer read on the frame channel. -/
inductive FrameOp (α : Type) where
  | publish (f : α)
  | read
deriving DecidableEq, Repr

/-- One frame-channel operation applied to the channel state. -/
def frameStep {α : Type} (ch : List α) : FrameOp α → List α
  | FrameOp.publish f => framePublish ch f
  | FrameOp.read => (getLatestFrame ch).2

/-- Frame-channel state reached from the initially empty queue by a
sequence of publishes and reads. -/
def frameRun {α : Type} (ops : List (FrameOp α)) : List α :=
  ops.foldl frameStep []

/-- A producer publish or a draining consumer poll on the decision
channel. -/
inductive ChanOp where
  | publish (d : Decision)
  | poll
deriving DecidableEq, Repr

/-- One decision-channel operation applied to the channel state. -/
def chanStep (ch : List Decision) : ChanOp → List Decision
  | ChanOp.publish d => decisionPublish ch d
  | ChanOp.poll => (decisionPoll ch).2

/-- Decision-channel state reached from the initially empty queue by a
sequence of publishes and polls. -/
def chanRun (ops : List ChanOp) : List Decision :=
  ops.foldl chanStep []

/-! ### Pipeline state machine (GestureController, src/main_3d.py:358-489) -/

/-- The per-frame tracking data the worker extracts from a camera frame
(src/main_3d.py:395-397): per-hand landmark lists and handedness
labels. It also stands for the annotated frame published to the frame
queue (src/main_3d.py:464). -/
structure FrameInput where
  all_landmarks : List (List Landmark)
  handedness : List String
deriving DecidableEq, Repr

/-- The lifecycle state of `GestureController` (src/main_3d.py:361-372):
the owned camera, the `running` flag, the worker-thread handle
(`some ()` once a worker was spawned), and whether the landmark-model
resource (`self.tracker`) is still open. -/
structure GestureController where
  camera : Camera
  running : Bool
  thread : Option Unit
  trackerOpen : Bool
deriving DecidableEq, Repr

/-- `GestureController.__init__` (src/main_3d.py:361-372). -/
def GestureController.init : GestureController :=
  { camera := Camera.init, running := false, thread := none, trackerOpen := true }

/-- `GestureController.start` (src/main_3d.py:374-380): open the
camera; on failure return `False` having spawned nothing; on success
set `running`, spawn the single worker thread and return `True`. -/
def GestureController.start (g : GestureController) (opens : Bool) :
    GestureController × Bool :=
  let cs := Camera.start g.camera opens
  if !cs.2 then
    ({ g with camera := cs.1 }, false)
  else
    ({ g with camera := cs.1, running := true, thread := some () }, true)

/-- `GestureController.stop` (src/main_3d.py:382-387): clear `running`;
join the worker with a bounded timeout when one exists (joining an
already-dead or never-started thread changes no modelled state and
raises nothing); close the tracker; release the camera. -/
def GestureController.stop (g : GestureController) : GestureController :=
  let g1 := { g with running := false }
  { g1 with trackerOpen := false, camera := Camera.stop g1.camera }

/-! ### Worker loop (GestureController._process_loop, src/main_3d.py:389-473) -/

/-- The environment of one worker iteration: the `self.running` value
observed by the `while` test, and the camera read outcome (`none`
models `success == False`). -/
structure WorkerStep where
  running : Bool
  read : Option FrameInput
deriving DecidableEq, Repr

/-- The worker-visible channel state: the two queues. -/
structure Channels where
  gesture_queue : List Decision
  frame_queue : List FrameInput
deriving DecidableEq, Repr

/-- The publications at the end of one successful iteration
(src/main_3d.py:452-473): the decision onto the unbounded gesture
queue, the annotated frame onto the evict-then-insert frame queue. -/
def publishBoth (ch : Channels) (inp : FrameInput) : Channels :=
  { gesture_queue :=
      decisionPublish ch.gesture_queue (processFrame inp.all_landmarks inp.handedness)
    frame_queue := framePublish ch.frame_queue inp }

/-- Outcome of running the worker loop on a finite prefix of its
environment: either it exited (observed `running = False`) or it is
still looping with the given channel state. -/
inductive WorkerOutcome where
  | exited (final : Channels)
  | looping (current : Channels)
deriving DecidableEq, Repr

/-- Whether the worker loop has exited. -/
def isExited : WorkerOutcome → Bool
  | WorkerOutcome.exited _ => true
  | WorkerOutcome.looping _ => false

/-- `GestureController._process_loop` (src/main_3d.py:389-473) driven
by an explicit per-iteration environment: the `while self.running:`
test exits the loop when the flag is false; a failed `read_frame`
skips the body (`continue`); a successful read classifies, resolves
and publishes. -/
def runWorker (ch : Channels) : List WorkerStep → WorkerOutcome
  | [] => WorkerOutcome.looping ch
  | step :: rest =>
    if step.running then
      match step.read with
      | none => runWorker ch rest
      | some inp => runWorker (publishBoth ch inp) rest
    else WorkerOutcome.exited ch

/-! ### Concrete synthetic hands used as witnesses -/

/-- A synthetic hand: 21 landmarks all at the origin. Every fingertip
is level with its PIP joint, so neither the fist nor the open rule
holds. -/
def flatHand : List Landmark := List.replicate 21 ⟨0, 0, 0⟩

/-- A synthetic fist: the four non-thumb fingertips (indices 8, 12, 16,
20) lie below (greater y than) their PIP joints. -/
def fistHand : List Landmark :=
  [⟨0, 0, 0⟩, ⟨0, 0, 0⟩, ⟨0, 0, 0⟩, ⟨0, 0, 0⟩, ⟨0, 0, 0⟩,
   ⟨0, 0, 0⟩, ⟨0, 0, 0⟩, ⟨0, 0, 0⟩, ⟨0, 1, 0⟩,
   ⟨0, 0, 0⟩, ⟨0, 0, 0⟩, ⟨0, 0, 0⟩, ⟨0, 1, 0⟩,
   ⟨0, 0, 0⟩, ⟨0, 0, 0⟩, ⟨0, 0, 0⟩, ⟨0, 1, 0⟩,
   ⟨0, 0, 0⟩, ⟨0, 0, 0⟩, ⟨0, 0, 0⟩, ⟨0, 1, 0⟩]

/-- A synthetic open palm: the four non-thumb PIP joints (indices 6,
10, 14, 18) lie below (greater y than) their fingertips. -/
def openHand : List Landmark :=
  [⟨0, 0, 0⟩, ⟨0, 0, 0⟩, ⟨0, 0, 0⟩, ⟨0, 0, 0⟩, ⟨0, 0, 0⟩,
   ⟨0, 0, 0⟩, ⟨0, 1, 0⟩, ⟨0, 0, 0⟩, ⟨0, 0, 0⟩,
   ⟨0, 0, 0⟩, ⟨0, 1, 0⟩, ⟨0, 0, 0⟩, ⟨0, 0, 0⟩,
   ⟨0, 0, 0⟩, ⟨0, 1, 0⟩, ⟨0, 0, 0⟩, ⟨0, 0, 0⟩,
   ⟨0, 0, 0⟩, ⟨0, 1, 0⟩, ⟨0, 0, 0⟩, ⟨0, 0, 0⟩]

/-! ### Helper lemmas -/

theorem is_fist_true_iff (l : List Landmark) (h : 21 ≤ l.length) :
    is_fist l = true ↔ allCurled l := by
  have hlt : ¬ l.length < 21 := by omega
  have hne : l.isEmpty = false := by
    cases l with
    | nil => simp at h
    | cons a t => rfl
  simp [is_fist, allCurled, hne, hlt, and_assoc,
    INDEX_TIP, MIDDLE_TIP, RING_TIP, PINKY_TIP,
    INDEX_PIP, MIDDLE_PIP, RING_PIP, PINKY_PIP]

theorem is_open_palm_true_iff (l : List Landmark) (h : 21 ≤ l.length) :
    is_open_palm l = true ↔ allExtended l := by
  have hlt : ¬ l.length < 21 := by omega
  have hne : l.isEmpty = false := by
    cases l with
    | nil => simp at h
    | cons a t => rfl
  simp [is_open_palm, allExtended, hne, hlt, and_assoc,
    INDEX_TIP, MIDDLE_TIP, RING_TIP, PINKY_TIP,
    INDEX_PIP, MIDDLE_PIP, RING_PIP, PINKY_PIP]

theorem not_curled_and_extended (l : List Landmark) :
    ¬ (allCurled l ∧ allExtended l) := by
  rintro ⟨hc, hx⟩
  exact absurd hx.1 (not_lt.mpr (le_of_lt hc.1))

/-- C2: the gesture classifier equals the reference definition: lists
with fewer than 21 points give "none"; with at least 21 points, "fist"
iff all four non-thumb tips lie strictly below their PIP joints, "open"
iff all lie strictly above, "none" otherwise; the thumb is excluded. -/
theorem C2_classifier_reference (landmarks : List Landmark) :
    (landmarks.length < 21 → detect_gesture landmarks = "none") ∧
    (21 ≤ landmarks.length →
      ((detect_gesture landmarks = "fist" ↔ allCurled landmarks) ∧
       (detect_gesture landmarks = "open" ↔ allExtended landmarks) ∧
       (detect_gesture landmarks = "none" ↔
         ¬ allCurled landmarks ∧ ¬ allExtended landmarks))) := by
  constructor
  · intro h
    simp [detect_gesture, is_fist, is_open_palm, h]
  · intro h
    have hf := is_fist_true_iff landmarks h
    have ho := is_open_palm_true_iff landmarks h
    have hne : landmarks.isEmpty = false := by
      cases landmarks with
      | nil => simp at h
      | cons a t => rfl
    by_cases hc : allCurled landmarks
    · have hnx : ¬ allExtended landmarks :=
        fun hx => not_curled_and_extended landmarks ⟨hc, hx⟩
      have h1 : is_fist landmarks = true := hf.mpr hc
      simp [detect_gesture, hne, h1, hc, hnx]
    · have h1 : is_fist landmarks = false :=
        Bool.eq_false_iff.mpr (fun ht => hc (hf.mp ht))
      by_cases hx : allExtended landmarks
      · have h2 : is_open_palm landmarks = true := ho.mpr hx
        simp [detect_gesture, hne, h1, h2, hc, hx]
      · have h2 : is_open_palm landmarks = false :=
          Bool.eq_false_iff.mpr (fun ht => hx (ho.mp ht))
        simp [detect_gesture, hne, h1, h2, hc, hx]

/-- Witness for C2: a 20-point list gives "none"; concrete 21-point
hands give "fist", "open", and "none" (mixed) respectively. -/
theorem C2_classifier_witness :
    detect_gesture (List.replicate 20 ⟨0, 0, 0⟩) = "none" ∧
    detect_gesture fistHand = "fist" ∧
    detect_gesture openHand = "open" ∧
    detect_gesture flatHand = "none" :=
  ⟨(C2_classifier_reference (List.replicate 20 ⟨0, 0, 0⟩)).1 (by decide),
   ((C2_classifier_reference fistHand).2 (by decide)).1.mpr (by decide),
   ((C2_classifier_reference openHand).2 (by decide)).2.1.mpr (by decide),
   ((C2_classifier_reference flatHand).2 (by decide)).2.2.mpr (by decide)⟩

/-- C1: for every processed frame, the published decision's action and
confidence are exactly the first-match evaluation of the fixed-priority
decision table on the published left/right gestures and the number of
detected hands. -/
theorem C1_decision_follows_table (all_landmarks : List (List Landmark))
    (handedness : List String) :
    ((processFrame all_landmarks handedness).pose,
     (processFrame all_landmarks handedness).confidence) =
      firstMatch (processFrame all_landmarks handedness).left_gesture
        (processFrame all_landmarks handedness).right_gesture
        all_landmarks.length := by
  have key : ∀ (l r : String) (n : Nat), resolve l r n = firstMatch l r n := by
    intro l r n
    by_cases h1 : l = "fist" <;> by_cases h2 : r = "fist" <;>
      by_cases h3 : l = "open" <;> by_cases h4 : r = "open" <;>
      simp_all [resolve, firstMatch, decisionRules, List.find?]
  simp only [processFrame, key]

theorem processHand_gesture_none (label : String)
    (lms : List Landmark) (h : detect_gesture lms = "none") :
    processHand ⟨"none", "none", 0, 0⟩ label lms = ⟨"none", "none", 0, 0⟩ := by
  simp only [processHand, h]
  split_ifs <;> simp_all

theorem accumFrom_all_none (hd : List String) (l : List (List Landmark))
    (h : ∀ lm ∈ l, detect_gesture lm = "none") :
    ∀ n : Nat, accumFrom hd n ⟨"none", "none", 0, 0⟩ l = ⟨"none", "none", 0, 0⟩ := by
  induction l with
  | nil => intro n; rfl
  | cons x t ih =>
    intro n
    have hx : detect_gesture x = "none" := h x (by simp)
    have ht : ∀ lm ∈ t, detect_gesture lm = "none" := fun lm hm => h lm (by simp [hm])
    simp only [accumFrom, processHand_gesture_none _ _ hx]
    exact ih ht (n + 1)

/-- C3 counterexample: a frame with one detected hand whose gesture is
"none" is published with confidence 0.3, not 0.5. -/
theorem C3_confidence_counterexample :
    detect_gesture flatHand = "none" ∧
    (processFrame [flatHand] ["Left"]).confidence = 0.3 ∧
    (processFrame [flatHand] ["Left"]).confidence ≠ 0.5 := by
  have hacc : accumGestures [flatHand] ["Left"] = ⟨"none", "none", 0, 0⟩ :=
    accumFrom_all_none ["Left"] [flatHand] (by decide) 0
  refine ⟨by decide, ?_, ?_⟩
  · simp [processFrame, hacc, resolve]
  · simp [processFrame, hacc, resolve]
    norm_num

/-- C3 amended: when at least one hand is detected but every detected
hand classifies to "none", the enriched intermediate confidence is 0.5,
but every branch of the decision chain overwrites it, so the published
decision carries the table's fallback confidence 0.3. -/
theorem C3_enriched_confidence_overridden (all_landmarks : List (List Landmark))
    (handedness : List String) (h1 : all_landmarks ≠ [])
    (h2 : ∀ lm ∈ all_landmarks, detect_gesture lm = "none") :
    computeConfidence (accumGestures all_landmarks handedness)
      all_landmarks.length = 0.5 ∧
    (processFrame all_landmarks handedness).confidence = 0.3 := by
  have hacc : accumGestures all_landmarks handedness = ⟨"none", "none", 0, 0⟩ :=
    accumFrom_all_none handedness all_landmarks h2 0
  have hlen : 0 < all_landmarks.length := List.length_pos.mpr h1
  have hne : ¬ all_landmarks.length = 0 := by omega
  constructor
  · rw [hacc]
    simp [computeConfidence, hlen]
  · simp [processFrame, hacc, resolve, hne]

/-- Witness for the amended C3 at a concrete one-hand frame. -/
theorem C3_enriched_confidence_witness :
    computeConfidence (accumGestures [flatHand] ["Left"]) [flatHand].length = 0.5 ∧
    (processFrame [flatHand] ["Left"]).confidence = 0.3 :=
  C3_enriched_confidence_overridden [flatHand] ["Left"] (by decide) (by decide)

/-- C4 counterexample: starting from the empty decision channel, two
publishes with no poll leave two pending decisions - the channel can
exceed one pending item and the older value is not dropped. -/
theorem C4_unbounded_counterexample :
    chanRun [ChanOp.publish ⟨"idle", "none", "none", 0⟩,
             ChanOp.publish ⟨"boxing", "fist", "fist", 1⟩] =
      [⟨"idle", "none", "none", 0⟩, ⟨"boxing", "fist", "fist", 1⟩] ∧
    (chanRun [ChanOp.publish ⟨"idle", "none", "none", 0⟩,
              ChanOp.publish ⟨"boxing", "fist", "fist", 1⟩]).length ≠ 1 := by
  exact ⟨rfl, by simp [chanRun, chanStep, decisionPublish]⟩

theorem chanRun_append_single (ops : List ChanOp) (op : ChanOp) :
    chanRun (ops ++ [op]) = chanStep (chanRun ops) op := by
  simp [chanRun, List.foldl_append]

/-- C4 amended: the decision channel is an unbounded queue. At every
reachable state a publish never blocks and drops nothing (the pending
count grows by exactly one), a draining poll right after a publish
returns that newest decision, and a poll always leaves the channel
empty. -/
theorem C4_decision_channel_unbounded (ops : List ChanOp) (d : Decision) :
    (chanRun (ops ++ [ChanOp.publish d])).length = (chanRun ops).length + 1 ∧
    (decisionPoll (chanRun (ops ++ [ChanOp.publish d]))).1 = some d ∧
    chanRun (ops ++ [ChanOp.poll]) = [] := by
  refine ⟨?_, ?_, ?_⟩
  · rw [chanRun_append_single]
    simp [chanStep, decisionPublish]
  · rw [chanRun_append_single]
    simp [chanStep, decisionPublish, decisionPoll]
  · rw [chanRun_append_single]
    rfl

theorem framePublish_eq_single {α : Type} (ch : List α) (f : α) :
    framePublish ch f = [f] := by
  simp [framePublish, framePut, frameDrain, frameCapacity]

theorem frameRun_length_le_one {α : Type} (ops : List (FrameOp α)) :
    (frameRun ops).length ≤ 1 := by
  suffices h : ∀ ch : List α, ch.length ≤ 1 → (ops.foldl frameStep ch).length ≤ 1 by
    exact h [] (by simp)
  induction ops with
  | nil => intro ch hch; simpa using hch
  | cons op rest ih =>
    intro ch hch
    cases op with
    | publish f =>
      exact ih (framePublish ch f) (by simp [framePublish_eq_single])
    | read =>
      refine ih (getLatestFrame ch).2 ?_
      cases ch with
      | nil => simp [getLatestFrame]
      | cons x t =>
        show t.length ≤ 1
        simp only [List.length_cons] at hch
        omega

theorem foldl_publish_last {α : Type} (fs : List α) :
    ∀ (h : fs ≠ []) (s : List α),
      (fs.map FrameOp.publish).foldl frameStep s = [fs.getLast h] := by
  induction fs with
  | nil => intro h; exact absurd rfl h
  | cons f rest ih =>
    intro h s
    cases rest with
    | nil => simp [frameStep, framePublish_eq_single]
    | cons g t =>
      have hrne : (g :: t) ≠ [] := by simp
      rw [List.map_cons, List.foldl_cons, ih hrne (frameStep s (FrameOp.publish f)),
        List.getLast_cons hrne]

/-- C5: the frame channel never exceeds its fixed capacity at any state
reachable by publishes and reads, and after any nonempty burst of
publishes with no reads, a single non-blocking read returns exactly the
most recently published frame (the producer evicts everything queued
before each insert). -/
theorem C5_frame_channel_latest {α : Type} (ops : List (FrameOp α))
    (fs : List α) (h : fs ≠ []) :
    (frameRun ops).length ≤ frameCapacity ∧
    (getLatestFrame (frameRun (ops ++ fs.map FrameOp.publish))).1 =
      some (fs.getLast h) := by
  constructor
  · have := frameRun_length_le_one ops
    simp [frameCapacity]
    omega
  · have hrw : frameRun (ops ++ fs.map FrameOp.publish) =
        (fs.map FrameOp.publish).foldl frameStep (frameRun ops) := by
      simp [frameRun, List.foldl_append]
    rw [hrw, foldl_publish_last fs h]
    rfl

/-- Witness for C5: after reads and the publish burst 1, 2, 3 a single
read returns frame 3, and the channel stays within capacity. -/
theorem C5_frame_channel_witness :
    (frameRun ([FrameOp.read] : List (FrameOp Nat))).length ≤ frameCapacity ∧
    (getLatestFrame (frameRun (([FrameOp.read] : List (FrameOp Nat)) ++
        ([1, 2, 3] : List Nat).map FrameOp.publish))).1 =
      some (([1, 2, 3] : List Nat).getLast (by decide)) :=
  C5_frame_channel_latest [FrameOp.read] [1, 2, 3] (by decide)

/-- C6: the worker loop never terminates because of a failed frame
read. As long as every iteration observes `running = true` the loop
does not exit, and when additionally every camera read fails, every
iteration is silently skipped: the channel state is untouched and the
loop keeps polling. -/
theorem C6_worker_survives_failed_reads (ch : Channels) (steps : List WorkerStep)
    (h : ∀ s ∈ steps, s.running = true) :
    isExited (runWorker ch steps) = false ∧
    ((∀ s ∈ steps, s.read = none) →
      runWorker ch steps = WorkerOutcome.looping ch) := by
  induction steps generalizing ch with
  | nil => exact ⟨rfl, fun _ => rfl⟩
  | cons s t ih =>
    have hs : s.running = true := h s (by simp)
    have ht : ∀ x ∈ t, x.running = true := fun x hx => h x (by simp [hx])
    cases hr : s.read with
    | none =>
      have hred : runWorker ch (s :: t) = runWorker ch t := by
        simp [runWorker, hs, hr]
      refine ⟨hred ▸ (ih ch ht).1, fun hn => hred ▸ (ih ch ht).2 ?_⟩
      exact fun x hx => hn x (by simp [hx])
    | some inp =>
      have hred : runWorker ch (s :: t) = runWorker (publishBoth ch inp) t := by
        simp [runWorker, hs, hr]
      refine ⟨hred ▸ (ih (publishBoth ch inp) ht).1, fun hn => ?_⟩
      have : s.read = none := hn s (by simp)
      rw [this] at hr
      exact absurd hr (by simp)

/-- Witness for C6: two iterations that both observe `running = true`
and both fail the camera read leave the loop alive with the channels
untouched. -/
theorem C6_worker_witness :
    isExited (runWorker ⟨[], []⟩ [⟨true, none⟩, ⟨true, none⟩]) = false ∧
    ((∀ s ∈ ([⟨true, none⟩, ⟨true, none⟩] : List WorkerStep), s.read = none) →
      runWorker ⟨[], []⟩ [⟨true, none⟩, ⟨true, none⟩] =
        WorkerOutcome.looping ⟨[], []⟩) :=
  C6_worker_survives_failed_reads ⟨[], []⟩ [⟨true, none⟩, ⟨true, none⟩] (by decide)

theorem Camera_stop_cap (c : Camera) : (Camera.stop c).cap = none := by
  cases c with
  | mk cap => cases cap <;> rfl

theorem Camera_stop_idem (c : Camera) :
    Camera.stop (Camera.stop c) = Camera.stop c := by
  cases c with
  | mk cap => cases cap <;> rfl

/-- C7: `stop()` is total (the model raises nothing) and, whether or
not `start()` was ever called, leaves the pipeline stopped: the running
flag is cleared and the camera released; a second `stop()` changes
nothing further. -/
theorem C7_stop_idempotent (g : GestureController) :
    (GestureController.stop g).running = false ∧
    (GestureController.stop g).camera.cap = none ∧
    (GestureController.stop g).trackerOpen = false ∧
    GestureController.stop (GestureController.stop g) = GestureController.stop g := by
  refine ⟨rfl, Camera_stop_cap g.camera, rfl, ?_⟩
  simp [GestureController.stop, Camera_stop_idem]

/-- C8: when the camera device cannot be opened, `start()` returns
false, spawns no worker and leaves `running` untouched (so a fresh
pipeline stays Idle); when it opens, `start()` returns true, sets
`running` and spawns exactly one worker. -/
theorem C8_start_spawns_iff_opened (g : GestureController) :
    ((GestureController.start g false).2 = false ∧
     (GestureController.start g false).1.thread = g.thread ∧
     (GestureController.start g false).1.running = g.running ∧
     (GestureController.start GestureController.init false).1.running = false ∧
     (GestureController.start GestureController.init false).1.thread = none) ∧
    ((GestureController.start g true).2 = true ∧
     (GestureController.start g true).1.running = true ∧
     (GestureController.start g true).1.thread = some ()) := by
  exact ⟨⟨rfl, rfl, rfl, rfl, rfl⟩, rfl, rfl, rfl⟩

theorem processHand_other_label (acc : GestureAcc) (label : String)
    (lms : List Landmark) (h1 : ¬ label = "Left") (h2 : ¬ label = "Right") :
    processHand acc label lms = acc := by
  simp [processHand, h1, h2]

theorem accumFrom_congr (hd : List String) (l1 : List (List Landmark)) :
    ∀ (l2 : List (List Landmark)), l1.length = l2.length →
    ∀ (n : Nat) (acc : GestureAcc),
      (∀ i, i < l1.length →
        (handLabel hd (n + i) = "Left" ∨ handLabel hd (n + i) = "Right") →
        l1.getD i [] = l2.getD i []) →
      accumFrom hd n acc l1 = accumFrom hd n acc l2 := by
  induction l1 with
  | nil =>
    intro l2 hlen n acc _
    cases l2 with
    | nil => rfl
    | cons y u => simp at hlen
  | cons x t ih =>
    intro l2 hlen n acc hsame
    cases l2 with
    | nil => simp at hlen
    | cons y u =>
      have hlen2 : t.length = u.length := by simpa using hlen
      have htail : ∀ i, i < t.length →
          (handLabel hd (n + 1 + i) = "Left" ∨ handLabel hd (n + 1 + i) = "Right") →
          t.getD i [] = u.getD i [] := by
        intro i hi hlab
        have heq : n + 1 + i = n + (i + 1) := by omega
        rw [heq] at hlab
        have := hsame (i + 1) (by simp only [List.length_cons]; omega) hlab
        simpa using this
      by_cases hlab : handLabel hd n = "Left" ∨ handLabel hd n = "Right"
      · have hx : x = y := by
          have := hsame 0 (by simp) (by simpa using hlab)
          simpa using this
        simp only [accumFrom, hx]
        exact ih u hlen2 (n + 1) _ htail
      · push_neg at hlab
        simp only [accumFrom,
          processHand_other_label acc (handLabel hd n) x hlab.1 hlab.2,
          processHand_other_label acc (handLabel hd n) y hlab.1 hlab.2]
        exact ih u hlen2 (n + 1) acc htail

/-- C9: two-run noninterference. If two processed frames have the same
number of detected hands, the same handedness labels, and identical
landmark data at every index labelled "Left" or "Right", then the
published decisions are identical: a hand labelled neither "Left" nor
"Right" influences the decision only through the hand count. -/
theorem C9_unknown_hand_noninterference (all1 all2 : List (List Landmark))
    (hd : List String) (hlen : all1.length = all2.length)
    (hsame : ∀ i, i < all1.length →
      (handLabel hd i = "Left" ∨ handLabel hd i = "Right") →
      all1.getD i [] = all2.getD i []) :
    processFrame all1 hd = processFrame all2 hd := by
  have hacc : accumGestures all1 hd = accumGestures all2 hd := by
    refine accumFrom_congr hd all1 all2 hlen 0 ⟨"none", "none", 0, 0⟩ ?_
    intro i hi hlab
    rw [Nat.zero_add] at hlab
    exact hsame i hi hlab
  simp only [processFrame, accumGestures] at hacc ⊢
  rw [hacc, hlen]

/-- Witness for C9: two frames sharing the Left-labelled fist hand but
differing entirely in the landmarks of the second, "Unknown"-labelled
hand produce the same decision. -/
theorem C9_noninterference_witness :
    processFrame [fistHand, flatHand] ["Left"] =
      processFrame [fistHand, openHand] ["Left"] :=
  C9_unknown_hand_noninterference [fistHand, flatHand] [fistHand, openHand]
    ["Left"] (by decide) (by decide)

theorem read_frame_cap_none {α : Type} (c : Camera) (dev : Option α)
    (h : c.cap = none) : Camera.read_frame c dev = (false, none) := by
  simp [Camera.read_frame, h]

/-- C10: a camera that was never started, or whose device was released
by `stop()`, answers every `read_frame()` with `(False, None)` and
raises nothing; such a failed read is exactly the worker's
skip-on-failure path, which leaves the loop and channels untouched. -/
theorem C10_read_frame_unstarted {α : Type} (c : Camera) (dev : Option α)
    (ch : Channels) (rest : List WorkerStep) :
    Camera.read_frame Camera.init dev = ((false : Bool), (none : Option α)) ∧
    Camera.read_frame (Camera.stop c) dev = ((false : Bool), (none : Option α)) ∧
    runWorker ch (⟨true, none⟩ :: rest) = runWorker ch rest := by
  refine ⟨rfl, read_frame_cap_none (Camera.stop c) dev (Camera_stop_cap c), ?_⟩
  simp [runWorker]

end ProjectAtom
